import Mathlib

/-!
Shallow embedding of the tinybus event bus (src/tinybus/base.py and
src/tinybus/models.py) together with proofs about its claims.

Modelling conventions:
- Python dicts become association lists over String keys with the
  operations the source uses: membership test, item assignment (replace
  or append at the end, preserving insertion order), `pop(key, None)`
  and `del`.  `defaultdict(list)` access is `ddGet`, which inserts an
  empty list when the key is absent, exactly as `self._listeners[event]`
  does in `publish`, `on` and `get_listeners`.
- Handlers are records carrying the data the bus consults: an optional
  return annotation (what `get_type_hints(handler).get(..)` yields), the
  time the coroutine takes, and its outcome (a value or a raised
  exception).  Event listeners carry a numeric identity `hid` because
  Python compares function objects by identity in `list.remove`.
- Methods that mutate `self` are state-passing functions returning the
  new `EventBus`; a method that can raise also returns the error.
- `asyncio.gather(*coros)` without `return_exceptions=True` starts every
  coroutine and, if any raises, propagates the first raised exception to
  the awaiter; `publish` therefore reports the list of started listener
  invocations and an optional propagated exception.
- The `exceptions` module is not under src/; the `BusError` inductive
  mirrors the constructor calls at the raise sites in base.py
  (`HandlerNotFoundError`, `HandlerAlreadyRegisteredError`,
  `HandlerTimeoutError(address, timeout)`,
  `HandlerExecutionError(address, cause)`).
- The `_reply_futures` field of `EventBus.__init__` is written to by no
  method in the source, so it is omitted from the state.
-/

/-- Python values as far as the bus inspects them: the absent value
`None`, strings, integers, and pydantic model instances tagged by their
class name. -/
inductive Value where
  | vnone : Value
  | vstr : String → Value
  | vint : Int → Value
  | vmodel : String → Value
deriving Repr, DecidableEq

/-- Return annotations the bus can capture from a handler via
`get_type_hints`: `None` (NoneType), `str`, `int`, a pydantic model
class, or `Optional` of a shape. -/
inductive Ty where
  | tNoneType : Ty
  | tStr : Ty
  | tInt : Ty
  | tModel : String → Ty
  | tOptional : Ty → Ty
deriving Repr, DecidableEq

/-- The `isinstance(response, expected_return_type)` check of base.py
line 180.  `Optional[X]` admits `None` and any instance of `X`
(CPython 3.10+ union instance checks). -/
def isInstance : Value → Ty → Bool
  | .vnone, .tNoneType => true
  | .vstr _, .tStr => true
  | .vint _, .tInt => true
  | .vmodel n, .tModel m => n = m
  | .vnone, .tOptional _ => true
  | v, .tOptional t => isInstance v t
  | _, _ => false

/-- The `__name__` of a captured return annotation, as used in the
TypeError message of base.py lines 181-184. -/
def tyName : Ty → String
  | .tNoneType => "NoneType"
  | .tStr => "str"
  | .tInt => "int"
  | .tModel n => n
  | .tOptional _ => "Optional"

/-- The `type(response).__name__` of a returned value. -/
def valueTypeName : Value → String
  | .vnone => "NoneType"
  | .vstr _ => "str"
  | .vint _ => "int"
  | .vmodel n => n

/-- Python exceptions the model distinguishes: a ValueError with its
message, a handler-raised error with a message, and the TypeError built
at base.py lines 181-184 carrying the address, the expected type name
and the actual type name. -/
inductive PyExn where
  | valueError : String → PyExn
  | raised : String → PyExn
  | typeError : String → String → String → PyExn
deriving Repr, DecidableEq

/-- The tinybus exception classes as raised in base.py: each constructor
records the arguments passed at the corresponding raise site. -/
inductive BusError where
  | handlerNotFound : String → BusError
  | handlerAlreadyRegistered : String → BusError
  | handlerTimeout : String → Rat → BusError
  | handlerExecution : String → PyExn → BusError
deriving Repr, DecidableEq

/-- models.py evaluates the field default `id: str = str(uuid.uuid4())`
once, when the Message class object is created; every instance built
without an explicit id therefore shares that single draw.  The one-time
draw is modelled as an arbitrary fixed string. -/
def classLevelDefaultId : String := "6f1e0c9a-5b42-4bd0-9e67-3f2a8c4d1b55"

/-- The Message envelope of models.py: id, optional body, optional
reply address. -/
structure Message where
  id : String
  body : Option Value
  reply_address : Option String
deriving Repr, DecidableEq

/-- `Message.create(body)` returns `cls(body=body)`: the id field takes
the class-level default and `reply_address` stays `None`. -/
def Message.create (body : Option Value) : Message :=
  { id := classLevelDefaultId, body := body, reply_address := none }

/-- DeliveryOptions of models.py with its defaults. -/
structure DeliveryOptions where
  timeout : Rat := 30
  retry_attempts : Int := 0
deriving Repr, DecidableEq

/-- Outcome of running a handler coroutine to completion: a returned
value or a raised exception. -/
inductive RunResult where
  | ok : Value → RunResult
  | exn : PyExn → RunResult
deriving Repr, DecidableEq

/-- A message handler as the bus observes it: the return annotation
that `get_type_hints(handler).get(..)` yields at registration, the
time the coroutine takes, and what it does with the delivered
envelope. -/
structure MessageHandler where
  returnAnnotation : Option Ty
  elapsed : Message → Rat
  run : Message → RunResult

/-- An event listener: `hid` models Python object identity (used by
`list.remove`), `run` returns the exception the coroutine raises, if
any. -/
structure EventHandler where
  hid : Nat
  run : Value → Option PyExn

/-- Dict lookup, `d.get(k)` / `d[k]` after a membership test. -/
def lookupKey (k : String) : List (String × α) → Option α
  | [] => none
  | (k2, v) :: rest => if k2 = k then some v else lookupKey k rest

/-- Dict item assignment `d[k] = v`: replace the entry if the key is
present, otherwise append at the end (dicts preserve insertion
order). -/
def setKey (k : String) (v : α) : List (String × α) → List (String × α)
  | [] => [(k, v)]
  | (k2, w) :: rest => if k2 = k then (k, v) :: rest else (k2, w) :: setKey k v rest

/-- Dict removal `d.pop(k, None)` / `del d[k]` on a present key: drop
the first entry with the key; tolerant when absent. -/
def delKey (k : String) : List (String × α) → List (String × α)
  | [] => []
  | (k2, w) :: rest => if k2 = k then rest else (k2, w) :: delKey k rest

/-- `defaultdict(list)` item access: return the stored list, or insert
an empty list for the key and return it.  Yields the value together
with the possibly-extended table. -/
def ddGet (k : String) (d : List (String × List β)) :
    List β × List (String × List β) :=
  match lookupKey k d with
  | some v => (v, d)
  | none => ([], d ++ [(k, [])])

/-- `list.remove(x)` of Python: drop the first element equal to `x`
(function objects compare by identity, here `hid`); `none` when absent,
which in Python is a raised ValueError. -/
def removeFirst (h : EventHandler) : List EventHandler → Option (List EventHandler)
  | [] => none
  | x :: xs =>
    if x.hid = h.hid then some xs
    else (removeFirst h xs).map (fun l => x :: l)

/-- The EventBus state of base.py `__init__`: the consumers dict maps an
address to the `(handler, expected_return_type)` pair stored at
registration, the listeners defaultdict maps an event name to its list
of handlers. -/
structure EventBus where
  consumers : List (String × (MessageHandler × Option Ty))
  listeners : List (String × List EventHandler)

/-- A fresh bus: both tables empty. -/
def EventBus.empty : EventBus := { consumers := [], listeners := [] }

/-- The Consumer handle returned by `EventBus.consumer`; the
`event_bus` back-reference is replaced by state passing. -/
structure Consumer where
  address : String
  handler : MessageHandler

/-- The Listener handle returned by `EventBus.on`. -/
structure Listener where
  event : String
  handler : EventHandler

/-- `EventBus.consumer(address, handler)`: raise
HandlerAlreadyRegisteredError when the address is occupied, otherwise
store `(handler, expected_return_type)` and return a Consumer
handle. -/
def EventBus.consumer (bus : EventBus) (address : String)
    (handler : MessageHandler) : EventBus × Except BusError Consumer :=
  if (lookupKey address bus.consumers).isSome then
    (bus, Except.error (.handlerAlreadyRegistered address))
  else
    ({ bus with
        consumers := setKey address (handler, handler.returnAnnotation) bus.consumers },
     Except.ok { address := address, handler := handler })

/-- `EventBus.on(event, handler)`: both the decorator and the method
path run `self._listeners[event].append(handler_fn)` and return a
Listener handle. -/
def EventBus.on (bus : EventBus) (event : String) (handler : EventHandler) :
    EventBus × Listener :=
  let r := ddGet event bus.listeners
  ({ bus with listeners := setKey event (r.1 ++ [handler]) r.2 },
   { event := event, handler := handler })

/-- What a request call produced: the returned value or raised bus
error, and how many times the registered handler was started. -/
structure RequestOutcome where
  result : Except BusError Value
  handlerInvocations : Nat
deriving Repr

/-- `EventBus.request(address, message, options)` of base.py lines
149-189: look up the address (HandlerNotFoundError when absent), build
the envelope via `Message.create`, start the handler once under
`asyncio.wait_for(handler(msg), options.timeout)`; a timeout becomes
HandlerTimeoutError, a raised exception or a failed
`isinstance(response, expected_return_type)` check becomes
HandlerExecutionError, otherwise the response is returned verbatim.
No branch starts the handler a second time. -/
def EventBus.request (bus : EventBus) (address : String)
    (message : Option Value) (options : Option DeliveryOptions) : RequestOutcome :=
  match lookupKey address bus.consumers with
  | none =>
    { result := Except.error (.handlerNotFound address), handlerInvocations := 0 }
  | some (handler, expected) =>
    let opts := options.getD {}
    let msg := Message.create message
    if handler.elapsed msg ≤ opts.timeout then
      match handler.run msg with
      | .exn e =>
        { result := Except.error (.handlerExecution address e), handlerInvocations := 1 }
      | .ok response =>
        match expected with
        | some t =>
          if isInstance response t then
            { result := Except.ok response, handlerInvocations := 1 }
          else
            { result := Except.error (.handlerExecution address
                (.typeError address (tyName t) (valueTypeName response))),
              handlerInvocations := 1 }
        | none => { result := Except.ok response, handlerInvocations := 1 }
    else
      { result := Except.error (.handlerTimeout address opts.timeout),
        handlerInvocations := 1 }

/-- Negation of the raise guard at base.py line 180: the captured
return annotation, when present, admits the response value. -/
def returnTypeAccepts : Option Ty → Value → Bool
  | none, _ => true
  | some t, v => isInstance v t

/-- What a publish call produced: the bus state afterwards (the
defaultdict access can insert an empty entry), the listener invocations
started (identity and delivered payload, in start order), and the
exception propagated out of `asyncio.gather`, if any. -/
structure PublishOutcome where
  bus : EventBus
  started : List (Nat × Value)
  result : Option PyExn

/-- `EventBus.publish(event, message)` of base.py lines 191-204: read
`self._listeners[event]` (a defaultdict access), and when non-empty,
`await asyncio.gather(*(listener(message) for listener in listeners))`:
every listener is started, in list order, with the same message; gather
without `return_exceptions=True` propagates the first raised listener
exception to the awaiter. -/
def EventBus.publish (bus : EventBus) (event : String) (message : Value) :
    PublishOutcome :=
  let r := ddGet event bus.listeners
  let bus2 : EventBus := { bus with listeners := r.2 }
  if r.1.isEmpty then
    { bus := bus2, started := [], result := none }
  else
    { bus := bus2,
      started := r.1.map (fun l => (l.hid, message)),
      result := (r.1.filterMap (fun l => l.run message)).head? }

/-- `EventBus.remove_consumer(address)`: `self._consumers.pop(address, None)`. -/
def EventBus.remove_consumer (bus : EventBus) (address : String) : EventBus :=
  { bus with consumers := delKey address bus.consumers }

/-- `EventBus.remove_listener(event, handler)` of base.py lines
215-226: when the event key is present, `self._listeners[event].remove(handler)`
(a ValueError when the handler is absent from the list), then drop the
event entry when the list became empty.  When the event key is absent,
nothing happens. -/
def EventBus.remove_listener (bus : EventBus) (event : String)
    (handler : EventHandler) : EventBus × Option PyExn :=
  match lookupKey event bus.listeners with
  | none => (bus, none)
  | some l =>
    match removeFirst handler l with
    | none => (bus, some (.valueError "list.remove(x): x not in list"))
    | some l2 =>
      if l2.isEmpty then ({ bus with listeners := delKey event bus.listeners }, none)
      else ({ bus with listeners := setKey event l2 bus.listeners }, none)

/-- `EventBus.get_consumers()`: the registered addresses in insertion
order. -/
def EventBus.get_consumers (bus : EventBus) : List String :=
  bus.consumers.map (fun p => p.1)

/-- `EventBus.get_listeners(event)`: `self._listeners[event].copy()`, a
defaultdict access that can insert an empty entry. -/
def EventBus.get_listeners (bus : EventBus) (event : String) :
    List EventHandler × EventBus :=
  let r := ddGet event bus.listeners
  (r.1, { bus with listeners := r.2 })

/-- `Consumer.unregister()`: `self.event_bus.remove_consumer(self.address)`. -/
def Consumer.unregister (c : Consumer) (bus : EventBus) : EventBus :=
  bus.remove_consumer c.address

/-- `Listener.unregister()`: `self.event_bus.remove_listener(self.event, self.handler)`. -/
def Listener.unregister (l : Listener) (bus : EventBus) : EventBus × Option PyExn :=
  bus.remove_listener l.event l.handler

/-- The listeners currently stored for an event, without the defaultdict
side effect: the snapshot `publish` iterates over. -/
def EventBus.listenersOf (bus : EventBus) (event : String) : List EventHandler :=
  (lookupKey event bus.listeners).getD []

/-! Association-list facts used by several claim proofs. -/

/-- Assigning a key makes it retrievable with the assigned value. -/
theorem lookupKey_setKey_self (k : String) (v : α) (d : List (String × α)) :
    lookupKey k (setKey k v d) = some v := by
  induction d with
  | nil => simp [setKey, lookupKey]
  | cons p rest ih =>
    obtain ⟨k2, w⟩ := p
    by_cases h : k2 = k
    · simp [setKey, h, lookupKey]
    · simp [setKey, h, lookupKey, ih]

/-- Removing an absent key changes nothing. -/
theorem lookupKey_none_delKey {k : String} {d : List (String × α)}
    (h : lookupKey k d = none) : delKey k d = d := by
  induction d with
  | nil => rfl
  | cons p rest ih =>
    obtain ⟨k2, w⟩ := p
    by_cases hk : k2 = k
    · simp [lookupKey, hk] at h
    · simp [lookupKey, hk] at h
      simp [delKey, hk, ih h]

/-- Lookup skips a prefix that does not hold the key. -/
theorem lookupKey_append_of_none {k : String} {d : List (String × α)}
    (h : lookupKey k d = none) (d2 : List (String × α)) :
    lookupKey k (d ++ d2) = lookupKey k d2 := by
  induction d with
  | nil => rfl
  | cons p rest ih =>
    obtain ⟨k2, w⟩ := p
    by_cases hk : k2 = k
    · simp [lookupKey, hk] at h
    · simp [lookupKey, hk] at h ⊢
      exact ih h

/-- `remove_listener` on an event absent from the table is a no-op. -/
theorem remove_listener_absent {bus : EventBus} {t : String} (h : EventHandler)
    (habsent : lookupKey t bus.listeners = none) :
    bus.remove_listener t h = (bus, none) := by
  unfold EventBus.remove_listener
  rw [habsent]

/-! Concrete handlers and buses used in counterexamples and witnesses. -/

/-- A listener whose coroutine finishes without raising. -/
def quietListener (i : Nat) : EventHandler :=
  { hid := i, run := fun _ => none }

/-- A listener whose coroutine raises the given exception. -/
def failingListener (i : Nat) (e : PyExn) : EventHandler :=
  { hid := i, run := fun _ => some e }

/-- A message handler that finishes immediately with the given outcome
and carries the given return annotation. -/
def immediateHandler (ann : Option Ty) (r : RunResult) : MessageHandler :=
  { returnAnnotation := ann, elapsed := fun _ => 0, run := fun _ => r }

/-! Claim C3. -/

/-- C3: false on the code.  models.py gives the id field the default
`str(uuid.uuid4())`, an expression evaluated once at class definition
time, so two envelopes built by `Message.create` carry the same id
rather than distinct freshly generated ones. -/
theorem C3_shared_default_id :
    (Message.create (some (.vstr "first"))).id =
      (Message.create (some (.vstr "second"))).id := rfl

/-! Claim C7. -/

/-- C7: on every request call the registered handler is started at most
once, whatever the options (including `retry_attempts`): no branch of
`request` re-invokes the handler after a timeout, a raised error, or a
failed return-type check. -/
theorem C7_no_retries (bus : EventBus) (address : String)
    (message : Option Value) (options : Option DeliveryOptions) :
    (bus.request address message options).handlerInvocations ≤ 1 := by
  unfold EventBus.request
  cases hd : lookupKey address bus.consumers with
  | none => simp
  | some p =>
    obtain ⟨handler, expected⟩ := p
    dsimp only
    by_cases hT : handler.elapsed (Message.create message) ≤ (options.getD {}).timeout
    · rw [if_pos hT]
      cases hr : handler.run (Message.create message) with
      | ok response =>
        cases expected with
        | none => simp
        | some t =>
          by_cases hi : isInstance response t = true
          · simp [hi]
          · simp [hi]
      | exn e => simp
    · rw [if_neg hT]

/-! Claim C8. -/

/-- C8: a request to an address with no registered consumer fails with
HandlerNotFoundError carrying the address, and no handler is
invoked. -/
theorem C8_handler_not_found (bus : EventBus) (address : String)
    (message : Option Value) (options : Option DeliveryOptions)
    (habsent : lookupKey address bus.consumers = none) :
    (bus.request address message options).result =
      Except.error (.handlerNotFound address) ∧
    (bus.request address message options).handlerInvocations = 0 := by
  unfold EventBus.request
  rw [habsent]
  exact ⟨rfl, rfl⟩

/-- C8 witness: the empty bus has no consumer at address a. -/
theorem C8_witness :
    (EventBus.empty.request "a" none none).result =
      Except.error (.handlerNotFound "a") ∧
    (EventBus.empty.request "a" none none).handlerInvocations = 0 :=
  C8_handler_not_found EventBus.empty "a" none none rfl

/-! Claim C5. -/

/-- C5: registering a second consumer on an occupied address raises
HandlerAlreadyRegisteredError and mutates nothing: the returned state is
the unchanged bus, and the originally stored handler pair is still the
one found at the address. -/
theorem C5_duplicate_registration (bus : EventBus) (a : String)
    (h2 : MessageHandler) (p : MessageHandler × Option Ty)
    (hocc : lookupKey a bus.consumers = some p) :
    bus.consumer a h2 = (bus, Except.error (.handlerAlreadyRegistered a)) ∧
    lookupKey a (bus.consumer a h2).1.consumers = some p := by
  have hmain : bus.consumer a h2 = (bus, Except.error (.handlerAlreadyRegistered a)) := by
    unfold EventBus.consumer
    rw [hocc]
    rfl
  exact ⟨hmain, by rw [hmain]; exact hocc⟩

/-- C5 witness: a bus holding one consumer at address a rejects a
second registration there. -/
theorem C5_witness :
    (EventBus.empty.consumer "a" (immediateHandler none (.ok .vnone))).1.consumer "a"
        (immediateHandler (some .tStr) (.ok (.vstr "x"))) =
      ((EventBus.empty.consumer "a" (immediateHandler none (.ok .vnone))).1,
        Except.error (.handlerAlreadyRegistered "a")) ∧
    lookupKey "a"
        ((EventBus.empty.consumer "a" (immediateHandler none (.ok .vnone))).1.consumer "a"
          (immediateHandler (some .tStr) (.ok (.vstr "x")))).1.consumers =
      some (immediateHandler none (.ok .vnone), none) :=
  C5_duplicate_registration
    (EventBus.empty.consumer "a" (immediateHandler none (.ok .vnone))).1 "a"
    (immediateHandler (some .tStr) (.ok (.vstr "x")))
    (immediateHandler none (.ok .vnone), none) rfl

/-! Claim C4. -/

/-- C4: a handler that legitimately answers with no value is served
verbatim: when the registered handler completes within the deadline
with the absent value and the captured return annotation (if any)
admits it, `request` returns the absent value with no error raised. -/
theorem C4_empty_response (bus : EventBus) (address : String)
    (message : Option Value) (options : Option DeliveryOptions)
    (handler : MessageHandler) (expected : Option Ty)
    (hfound : lookupKey address bus.consumers = some (handler, expected))
    (hfast : handler.elapsed (Message.create message) ≤ (options.getD {}).timeout)
    (hrun : handler.run (Message.create message) = .ok .vnone)
    (hshape : returnTypeAccepts expected .vnone = true) :
    (bus.request address message options).result = Except.ok .vnone := by
  unfold EventBus.request
  rw [hfound]
  dsimp only
  rw [if_pos hfast, hrun]
  cases expected with
  | none => rfl
  | some t =>
    have hi : isInstance Value.vnone t = true := hshape
    simp [hi]

/-- C4 witness: an unannotated handler returning the absent value. -/
theorem C4_witness :
    ((EventBus.empty.consumer "a" (immediateHandler none (.ok .vnone))).1.request
        "a" none none).result = Except.ok .vnone :=
  C4_empty_response (EventBus.empty.consumer "a" (immediateHandler none (.ok .vnone))).1
    "a" none none (immediateHandler none (.ok .vnone)) none rfl
    (by norm_num [immediateHandler]) rfl rfl

/-! Claim C6. -/

/-- C6: when a return annotation was captured at registration and the
handler completes with a value the annotation rejects, `request` fails
with HandlerExecutionError, the same error kind as handler-raised
failures, carrying the address and the invalid-type TypeError as
cause. -/
theorem C6_invalid_return_type (bus : EventBus) (address : String)
    (message : Option Value) (options : Option DeliveryOptions)
    (handler : MessageHandler) (t : Ty) (v : Value)
    (hfound : lookupKey address bus.consumers = some (handler, some t))
    (hfast : handler.elapsed (Message.create message) ≤ (options.getD {}).timeout)
    (hrun : handler.run (Message.create message) = .ok v)
    (hbad : isInstance v t = false) :
    (bus.request address message options).result =
      Except.error (.handlerExecution address
        (.typeError address (tyName t) (valueTypeName v))) := by
  unfold EventBus.request
  rw [hfound]
  dsimp only
  rw [if_pos hfast, hrun]
  simp [hbad]

/-- C6 witness: a handler annotated to return str that completes with
an int. -/
theorem C6_witness :
    ((EventBus.empty.consumer "a" (immediateHandler (some .tStr) (.ok (.vint 0)))).1.request
        "a" none none).result =
      Except.error (.handlerExecution "a" (.typeError "a" "str" "int")) :=
  C6_invalid_return_type
    (EventBus.empty.consumer "a" (immediateHandler (some .tStr) (.ok (.vint 0)))).1
    "a" none none (immediateHandler (some .tStr) (.ok (.vint 0))) .tStr (.vint 0)
    rfl (by norm_num [immediateHandler]) rfl rfl

/-! Claim C9. -/

/-- C9: a publish call starts every listener of the topic's stored
sequence exactly once, in sequence order, with the same payload; and
registration appends at the end of the sequence, so the start order is
the registration order. -/
theorem C9_publish_order (bus : EventBus) (t : String) (body : Value)
    (h : EventHandler) :
    (bus.publish t body).started =
      (bus.listenersOf t).map (fun l => (l.hid, body)) ∧
    ((bus.on t h).1.listenersOf t) = bus.listenersOf t ++ [h] := by
  constructor
  · unfold EventBus.publish EventBus.listenersOf ddGet
    cases hd : lookupKey t bus.listeners with
    | none => simp
    | some L =>
      cases L with
      | nil => simp
      | cons x xs => simp
  · unfold EventBus.on EventBus.listenersOf ddGet
    cases hd : lookupKey t bus.listeners with
    | none => simp [lookupKey_setKey_self]
    | some L => simp [lookupKey_setKey_self]

/-! Claim C10. -/

/-- C10: publishing to a topic absent from the listener table, or
reading its listeners, leaves the consumer table unchanged and starts
no handler, but the defaultdict access inserts an empty-sequence entry
for the topic, which thereby becomes a key of the table. -/
theorem C10_absent_topic_inserts (bus : EventBus) (t : String) (body : Value)
    (habsent : lookupKey t bus.listeners = none) :
    (bus.publish t body).bus.consumers = bus.consumers ∧
    (bus.publish t body).started = [] ∧
    (bus.publish t body).result = none ∧
    lookupKey t (bus.publish t body).bus.listeners = some [] ∧
    (bus.get_listeners t).1 = [] ∧
    (bus.get_listeners t).2.consumers = bus.consumers ∧
    lookupKey t (bus.get_listeners t).2.listeners = some [] := by
  have hl : lookupKey t (bus.listeners ++ [(t, ([] : List EventHandler))]) = some [] := by
    rw [lookupKey_append_of_none habsent]
    simp [lookupKey]
  unfold EventBus.publish EventBus.get_listeners ddGet
  rw [habsent]
  exact ⟨rfl, rfl, rfl, hl, rfl, rfl, hl⟩

/-- C10 witness: the empty bus has no entry for the topic. -/
theorem C10_witness :
    (EventBus.empty.publish "t" (.vstr "x")).bus.consumers = EventBus.empty.consumers ∧
    (EventBus.empty.publish "t" (.vstr "x")).started = [] ∧
    (EventBus.empty.publish "t" (.vstr "x")).result = none ∧
    lookupKey "t" (EventBus.empty.publish "t" (.vstr "x")).bus.listeners = some [] ∧
    (EventBus.empty.get_listeners "t").1 = [] ∧
    (EventBus.empty.get_listeners "t").2.consumers = EventBus.empty.consumers ∧
    lookupKey "t" (EventBus.empty.get_listeners "t").2.listeners = some [] :=
  C10_absent_topic_inserts EventBus.empty "t" (.vstr "x") rfl

/-! Claim C1. -/

/-- A bus with two listeners on one topic, the first of which raises. -/
def c1Bus : EventBus :=
  ((EventBus.empty.on "error.event"
      (failingListener 1 (.valueError "Listener failed"))).1.on
    "error.event" (quietListener 2)).1

/-- C1 counterexample: with a raising listener registered, publish does
not return normally to its caller; the listener exception propagates
out of the `asyncio.gather` call and hence out of publish. -/
theorem C1_counterexample :
    (c1Bus.publish "error.event" (.vstr "payload")).result =
      some (PyExn.valueError "Listener failed") ∧
    (c1Bus.publish "error.event" (.vstr "payload")).result ≠ none := by
  have h : (c1Bus.publish "error.event" (.vstr "payload")).result =
      some (PyExn.valueError "Listener failed") := rfl
  exact ⟨h, by rw [h]; exact fun hc => Option.noConfusion hc⟩

/-- C1 (amended): when a listener of the topic raises on the payload,
publish still starts every listener of the snapshot exactly once with
that payload, but the exception propagates: publish does not return
normally. -/
theorem C1_exception_propagates (bus : EventBus) (t : String) (body : Value)
    (l : EventHandler) (e : PyExn)
    (hmem : l ∈ bus.listenersOf t) (hraise : l.run body = some e) :
    (bus.publish t body).started =
      (bus.listenersOf t).map (fun x => (x.hid, body)) ∧
    (bus.publish t body).result ≠ none := by
  cases hd : lookupKey t bus.listeners with
  | none =>
    exfalso
    simp only [EventBus.listenersOf, hd, Option.getD_none] at hmem
    exact absurd hmem (List.not_mem_nil l)
  | some L =>
    simp only [EventBus.listenersOf, hd, Option.getD_some] at hmem ⊢
    obtain ⟨x, xs, rfl⟩ : ∃ x xs, L = x :: xs := by
      cases L with
      | nil => exact absurd hmem (List.not_mem_nil l)
      | cons x xs => exact ⟨x, xs, rfl⟩
    constructor
    · simp [EventBus.publish, ddGet, hd]
    · simp only [EventBus.publish, ddGet, hd, List.isEmpty_cons,
        Bool.false_eq_true, if_false]
      intro hnone
      rw [List.head?_eq_none_iff] at hnone
      have hmemf : e ∈ (x :: xs).filterMap (fun l2 => l2.run body) :=
        List.mem_filterMap.mpr ⟨l, hmem, hraise⟩
      rw [hnone] at hmemf
      exact absurd hmemf (List.not_mem_nil e)

/-- C1 witness: the two-listener bus with a raising first listener. -/
theorem C1_witness :
    (c1Bus.publish "error.event" (.vstr "payload")).started =
      ((c1Bus.listenersOf "error.event").map
        (fun x => (x.hid, Value.vstr "payload"))) ∧
    (c1Bus.publish "error.event" (.vstr "payload")).result ≠ none := by
  have hmem : failingListener 1 (.valueError "Listener failed") ∈
      c1Bus.listenersOf "error.event" := by
    show failingListener 1 (.valueError "Listener failed") ∈
      [failingListener 1 (.valueError "Listener failed"), quietListener 2]
    exact List.mem_cons_self _ _
  exact C1_exception_propagates c1Bus "error.event" (.vstr "payload")
    (failingListener 1 (.valueError "Listener failed"))
    (.valueError "Listener failed") hmem rfl

/-! Claim C2. -/

/-- The first registration on topic t: its handle is unregistered twice
in the counterexample. -/
def c2Reg1 : EventBus × Listener := EventBus.empty.on "t" (quietListener 1)

/-- The bus after a second listener joined the same topic. -/
def c2Bus : EventBus := (c2Reg1.1.on "t" (quietListener 2)).1

/-- C2 counterexample: with another listener still registered on the
topic, the second unregister of the same handle is not a no-op: the
underlying `list.remove` raises ValueError because the handler is no
longer in the topic's list. -/
theorem C2_counterexample :
    (c2Reg1.2.unregister (c2Reg1.2.unregister c2Bus).1).2 =
      some (PyExn.valueError "list.remove(x): x not in list") := rfl

/-- C2 (amended): a second Consumer.unregister never raises and removes
nothing (removing an absent address leaves the table unchanged), and a
second Listener.unregister is a no-op when the first removal emptied
the topic and dropped its entry; when other listeners remain on the
topic the second call instead raises ValueError, as the counterexample
shows. -/
theorem C2_second_unregister (bus : EventBus) (a t : String) (h : EventHandler)
    (habsent : lookupKey a bus.consumers = none)
    (hdropped : lookupKey t (bus.remove_listener t h).1.listeners = none) :
    bus.remove_consumer a = bus ∧
    (bus.remove_listener t h).1.remove_listener t h =
      ((bus.remove_listener t h).1, none) := by
  constructor
  · unfold EventBus.remove_consumer
    rw [lookupKey_none_delKey habsent]
  · exact remove_listener_absent h hdropped

/-- A bus whose topic t holds a single listener, so the first removal
drops the topic entry. -/
def c2SoloBus : EventBus := (EventBus.empty.on "t" (quietListener 1)).1

/-- C2 witness: on the single-listener bus the address a is absent and
the first listener removal drops the topic entry. -/
theorem C2_witness :
    c2SoloBus.remove_consumer "a" = c2SoloBus ∧
    (c2SoloBus.remove_listener "t" (quietListener 1)).1.remove_listener "t"
        (quietListener 1) =
      ((c2SoloBus.remove_listener "t" (quietListener 1)).1, none) :=
  C2_second_unregister c2SoloBus "a" "t" (quietListener 1) rfl rfl
